import Mathlib

/-
Verification of the SO-100 teleoperation engine.

Shallow embedding of the keyboard/network control logic of
`lerobot/common/robot_devices/robots/manipulator.py` (class
KeyboardController and the safety-limit helpers) and of the network
command dispatch of `remote_control_server.py`.

Python floats are modelled as exact rationals (ℚ); torch tensors as
`List ℚ`; Python dicts keyed by strings as association lists with
insert-or-replace update; operations that can raise a Python exception
(KeyError / IndexError on tensor access) return `Option`.  Tkinter
timer bookkeeping (`key_timers`, `root.after`) is real-time GUI state
outside the data the properties below mention and is not modelled;
log emission is modelled, where a property needs it, as an explicit
list of emitted messages.
-/

/-! ## Constants (manipulator.py, module level) -/

def DEFAULT_SPEED_SCALE : ℚ := 1.0

def DEFAULT_BASE_SPEED : ℚ := 10.0

def DEFAULT_HOLD_SPEED : ℚ := 2.0

def SPEED_SCALE_MIN : ℚ := 0.1

def SPEED_SCALE_MAX : ℚ := 5.0

def HOLD_SPEED_MIN : ℚ := 0.1

def HOLD_SPEED_MAX : ℚ := 10.0

def MOTOR_SHOULDER_PAN : Nat := 0

def MOTOR_SHOULDER_LIFT : Nat := 1

def MOTOR_ELBOW_FLEX : Nat := 2

def MOTOR_WRIST_FLEX : Nat := 3

def MOTOR_WRIST_ROLL : Nat := 4

def MOTOR_GRIPPER : Nat := 5

def MOTOR_NAMES : List String :=
  ["shoulder_pan", "shoulder_lift", "elbow_flex", "wrist_flex", "wrist_roll", "gripper"]

/-! ## Association-list helpers (Python dict access) -/

def lookupStr {α : Type} (k : String) : List (String × α) → Option α
  | [] => none
  | (k', v) :: rest => if k' = k then some v else lookupStr k rest

/-- Python dict assignment `d[k] = v`: replace in place or append. -/
def updateAssoc {α : Type} (l : List (String × α)) (k : String) (v : α) :
    List (String × α) :=
  match l with
  | [] => [(k, v)]
  | (k', v') :: rest =>
    if k' = k then (k, v) :: rest else (k', v') :: updateAssoc rest k v

/-- Torch in-place `t[i] += δ`; IndexError when `i` is out of range. -/
def tensorAddAt (t : List ℚ) (i : Nat) (δ : ℚ) : Option (List ℚ) :=
  if i < t.length then some (t.set i (t.getD i 0 + δ)) else none

/-- Torch in-place `t[i] = p` with a Python (possibly negative) index. -/
def tensorSetAtInt (t : List ℚ) (i : Int) (p : ℚ) : Option (List ℚ) :=
  if 0 ≤ i ∧ i < (t.length : Int) then some (t.set i.toNat p)
  else if -(t.length : Int) ≤ i ∧ i < 0 then
    some (t.set ((t.length : Int) + i).toNat p)
  else none

/-! ## KeyboardController state (manipulator.py:80-110) -/

structure KCState where
  pressed_keys : List String
  ctrl_pressed : Bool
  emergency_stop_active : Bool
  speed_scale : ℚ
  base_speed : ℚ
  hold_speed : ℚ
  target_positions : List (String × List ℚ)
  key_mapping : List (String × (Nat × ℚ))
deriving DecidableEq, Repr

/-- `_create_base_key_mapping` (manipulator.py:112-158): entries
`key ↦ (motor_idx, base_delta)` in source order. -/
def base_key_mapping : List (String × (Nat × ℚ)) :=
  [("w", (MOTOR_SHOULDER_LIFT, 0.5)),
   ("s", (MOTOR_SHOULDER_LIFT, -0.5)),
   ("a", (MOTOR_SHOULDER_PAN, -0.5)),
   ("d", (MOTOR_SHOULDER_PAN, 0.5)),
   ("q", (MOTOR_ELBOW_FLEX, 0.5)),
   ("e", (MOTOR_ELBOW_FLEX, -0.5)),
   ("r", (MOTOR_WRIST_FLEX, 0.5)),
   ("f", (MOTOR_WRIST_FLEX, -0.5)),
   ("z", (MOTOR_WRIST_ROLL, -0.5)),
   ("x", (MOTOR_WRIST_ROLL, 0.5)),
   ("c", (MOTOR_GRIPPER, -0.5)),
   ("v", (MOTOR_GRIPPER, 0.5)),
   ("up", (MOTOR_SHOULDER_LIFT, 0.5)),
   ("down", (MOTOR_SHOULDER_LIFT, -0.5)),
   ("left", (MOTOR_SHOULDER_PAN, -0.5)),
   ("right", (MOTOR_SHOULDER_PAN, 0.5)),
   ("1", (MOTOR_SHOULDER_PAN, -0.5)),
   ("2", (MOTOR_SHOULDER_LIFT, 0.5)),
   ("3", (MOTOR_ELBOW_FLEX, 0.5)),
   ("4", (MOTOR_WRIST_FLEX, 0.5)),
   ("5", (MOTOR_WRIST_ROLL, -0.5)),
   ("6", (MOTOR_GRIPPER, -0.5)),
   ("exclam", (MOTOR_SHOULDER_PAN, 0.5)),
   ("at", (MOTOR_SHOULDER_LIFT, -0.5)),
   ("numbersign", (MOTOR_ELBOW_FLEX, -0.5)),
   ("dollar", (MOTOR_WRIST_FLEX, -0.5)),
   ("percent", (MOTOR_WRIST_ROLL, 0.5)),
   ("asciicircum", (MOTOR_GRIPPER, 0.5))]

/-- `_update_key_mapping` (manipulator.py:160-164). -/
def _update_key_mapping (s : KCState) : KCState :=
  { s with key_mapping :=
      (base_key_mapping.map
        (fun e => (e.1, (e.2.1, e.2.2 * s.base_speed * s.speed_scale)))) }

/-- Fresh controller state after `KeyboardController.__init__`
(before target positions are initialised from a position read). -/
def initKC : KCState :=
  _update_key_mapping
    { pressed_keys := []
      ctrl_pressed := false
      emergency_stop_active := false
      speed_scale := DEFAULT_SPEED_SCALE
      base_speed := DEFAULT_BASE_SPEED
      hold_speed := DEFAULT_HOLD_SPEED
      target_positions := []
      key_mapping := [] }

/-- `adjust_speed` (manipulator.py:166-173). -/
def adjust_speed (δ : ℚ) (s : KCState) : KCState :=
  let ns := max SPEED_SCALE_MIN (min SPEED_SCALE_MAX (s.speed_scale + δ))
  let s' := { s with speed_scale := ns }
  if ns ≠ s.speed_scale then _update_key_mapping s' else s'

/-- `reset_speed` (manipulator.py:175-182). -/
def reset_speed (s : KCState) : KCState :=
  let s' := { s with speed_scale := DEFAULT_SPEED_SCALE }
  if DEFAULT_SPEED_SCALE ≠ s.speed_scale then _update_key_mapping s' else s'

/-- `adjust_hold_speed` (manipulator.py:184-189). -/
def adjust_hold_speed (δ : ℚ) (s : KCState) : KCState :=
  { s with hold_speed := max HOLD_SPEED_MIN (min HOLD_SPEED_MAX (s.hold_speed + δ)) }

/-- `reset_hold_speed` (manipulator.py:191-196). -/
def reset_hold_speed (s : KCState) : KCState :=
  { s with hold_speed := DEFAULT_HOLD_SPEED }

/-- `update_target_position` (manipulator.py:210-220); the boolean is the
Python return value, `none` models the KeyError/IndexError path. -/
def update_target_position (key : String) (is_connected : Bool) (s : KCState) :
    Option (KCState × Bool) :=
  match lookupStr key s.key_mapping, is_connected with
  | some (idx, δ), true =>
    match lookupStr "main" s.target_positions with
    | none => none
    | some t =>
      match tensorAddAt t idx δ with
      | none => none
      | some t' =>
        some ({ s with target_positions := updateAssoc s.target_positions "main" t' },
              true)
  | _, _ => some (s, false)

/-- `on_key_press` (manipulator.py:232-292), with `key` the lower-cased
keysym; timer scheduling (`root.after`) is not part of the modelled state. -/
def on_key_press (key : String) (is_connected : Bool) (s : KCState) :
    Option KCState :=
  if s.emergency_stop_active ∧ key ≠ "escape" then some s
  else if key ∈ s.pressed_keys then some s
  else
    let s1 := { s with pressed_keys := key :: s.pressed_keys }
    if key = "control_l" ∨ key = "control_r" then
      some { s1 with ctrl_pressed := true }
    else if key = "plus" ∨ key = "equal" then
      some (if s1.ctrl_pressed then adjust_hold_speed 0.5 s1 else adjust_speed 0.1 s1)
    else if key = "minus" then
      some (if s1.ctrl_pressed then adjust_hold_speed (-0.5) s1 else adjust_speed (-0.1) s1)
    else if key = "asterisk" ∨ key = "multiply" then
      some (if s1.ctrl_pressed then reset_hold_speed s1 else reset_speed s1)
    else
      match lookupStr key s1.key_mapping with
      | some _ =>
        if is_connected then (update_target_position key true s1).map Prod.fst
        else some s1
      | none => some s1

/-- `on_escape_press` (manipulator.py:316-353).  `readResult` models the
outcome of `follower_arms["main"].read("Present_Position")`: `some pos`
on success, `none` when the read raises (the except branch logs and
leaves the state as it was at that point). -/
def on_escape_press (is_connected : Bool) (readResult : Option (List ℚ))
    (s : KCState) : KCState :=
  if ¬ s.emergency_stop_active then
    let s1 := { s with emergency_stop_active := true, pressed_keys := [] }
    if is_connected then
      match readResult with
      | some pos =>
        { s1 with target_positions := updateAssoc s1.target_positions "main" pos }
      | none => s1
    else s1
  else { s with emergency_stop_active := false }

/-! ## Goal computation (manipulator.py:355-390) -/

/-- Gravity-compensation loop body: `MOTOR_NAMES[i] if i < len(MOTOR_NAMES)
else f"motor_{i}"`. -/
def motorNameAt (i : Nat) : String :=
  MOTOR_NAMES.getD i ("motor_" ++ toString i)

def gravityCompAux (i : Nat) : List ℚ → List ℚ
  | [] => []
  | x :: xs =>
    (if motorNameAt i = "shoulder_lift" then x + 6.0
     else if motorNameAt i = "elbow_flex" then x + 3.0
     else x) :: gravityCompAux (i + 1) xs

/-- The per-arm gravity-compensation of `calculate_goal_positions`
(manipulator.py:370-379) applied to a cloned target vector. -/
def gravityComp (t : List ℚ) : List ℚ := gravityCompAux 0 t

/-- `calculate_goal_positions` (manipulator.py:355-390): iterate over the
`current_positions` dict; in emergency mode the goal is the current
position and the target is re-synced to it; otherwise the goal is the
gravity-compensated target (`none` models the KeyError when an arm has
no target entry). -/
def calculate_goal_positions (s : KCState) :
    List (String × List ℚ) → Option (List (String × List ℚ) × KCState)
  | [] => some ([], s)
  | (name, cur) :: rest =>
    if s.emergency_stop_active then
      let s' := { s with target_positions := updateAssoc s.target_positions name cur }
      match calculate_goal_positions s' rest with
      | some (gs, sF) => some ((name, cur) :: gs, sF)
      | none => none
    else
      match lookupStr name s.target_positions with
      | none => none
      | some t =>
        match calculate_goal_positions s rest with
        | some (gs, sF) => some ((name, gravityComp t) :: gs, sF)
        | none => none

/-! ## Safety limiters (manipulator.py:484-509, 1155-1166) -/

/-- `max_relative_target` may be a Python scalar or a per-motor list. -/
inductive MaxRelTarget where
  | scalar (q : ℚ)
  | vector (qs : List ℚ)
deriving DecidableEq, Repr

/-- Broadcast of `torch.tensor(max_relative_target)` against a goal of
length `n`. -/
def expandMax (m : MaxRelTarget) (n : Nat) : List ℚ :=
  match m with
  | .scalar q => List.replicate n q
  | .vector qs => qs

/-- Element-wise `present + max(min(goal - present, d), -d)`. -/
def clampElems : List ℚ → List ℚ → List ℚ → List ℚ
  | g :: gs, p :: ps, d :: ds =>
    (p + max (min (g - p) d) (-d)) :: clampElems gs ps ds
  | _, _, _ => []

/-- `ensure_safe_goal_position` (manipulator.py:484-501). -/
def ensure_safe_goal_position (goal present : List ℚ) (m : MaxRelTarget) :
    List ℚ :=
  clampElems goal present (expandMax m goal.length)

/-- `ensure_absolute_position_limits` (manipulator.py:504-509): the body
is `return goal_pos` (limits disabled by user request). -/
def ensure_absolute_position_limits (goal : List ℚ) (motor_names : List String)
    (robot_type : String) : List ℚ :=
  goal

/-- `ManipulatorRobot._apply_safety_limits` (manipulator.py:1155-1166),
with `motorNamesOf` giving each arm's motor-name list; the relative
check is commented out in the source (`max_relative_target` is None). -/
def _apply_safety_limits (motorNamesOf : String → List String)
    (robot_type : String) (goal : List (String × List ℚ)) :
    List (String × List ℚ) :=
  goal.map (fun e => (e.1, ensure_absolute_position_limits e.2 (motorNamesOf e.1) robot_type))

/-! ## Remote server (remote_control_server.py) -/

/-- A decoded JSON command; `command.get(...)` of a missing field is
`none`. -/
structure Command where
  ctype : Option String
  key : Option String
  motor_idx : Option Int
  position : Option ℚ
deriving DecidableEq, Repr

/-- `SO100RemoteServer` state relevant to command processing: the robot
object's presence, the `status_data` dict and the shared controller. -/
structure SrvState where
  robot : Bool
  connected : Bool
  emergency_stop : Bool
  status_positions : List (String × List ℚ)
  status_targets : List (String × List ℚ)
  kc : KCState
deriving DecidableEq, Repr

/-- `_simulate_key_press` (remote_control_server.py:269-277): applies the
mapped delta to the target whenever the key is mapped and a "main"
target exists — the emergency-stop flag is never consulted.  Returns the
new state and the log lines emitted; `none` models an uncaught
IndexError. -/
def _simulate_key_press (key : Option String) (st : SrvState) :
    Option (SrvState × List String) :=
  match key with
  | none => some (st, [])
  | some k =>
    match lookupStr k st.kc.key_mapping with
    | none => some (st, [])
    | some (idx, δ) =>
      match lookupStr "main" st.kc.target_positions with
      | none => some (st, [])
      | some t =>
        match tensorAddAt t idx δ with
        | none => none
        | some t' =>
          some ({ st with kc :=
                   { st.kc with target_positions :=
                       updateAssoc st.kc.target_positions "main" t' } },
                ["key_press applied"])

/-- `_simulate_key_release` (remote_control_server.py:279-281): log only. -/
def _simulate_key_release (key : Option String) (st : SrvState) :
    SrvState × List String :=
  (st, ["key_release logged"])

/-- `_emergency_stop` (remote_control_server.py:283-293).  The read, the
target overwrite and `status_data['emergency_stop'] = True` all sit
inside the `try`; a failing read (`readResult = none`) reaches the
`except`, which only logs. -/
def server_emergency_stop (readResult : Option (List ℚ)) (st : SrvState) :
    SrvState × List String :=
  if st.robot then
    match readResult with
    | some pos =>
      ({ st with
          kc := { st.kc with target_positions :=
                    updateAssoc st.kc.target_positions "main" pos }
          emergency_stop := true },
       ["Emergency stop executed"])
    | none => (st, ["Emergency stop failed"])
  else (st, [])

/-- `_set_target_position` (remote_control_server.py:295-299); `none`
models the uncaught TypeError/IndexError of `targets["main"][idx] = p`. -/
def _set_target_position (midx : Option Int) (pos : Option ℚ) (st : SrvState) :
    Option (SrvState × List String) :=
  if st.robot then
    match lookupStr "main" st.kc.target_positions with
    | none => some (st, [])
    | some t =>
      match midx, pos with
      | some i, some p =>
        match tensorSetAtInt t i p with
        | none => none
        | some t' =>
          some ({ st with kc :=
                   { st.kc with target_positions :=
                       updateAssoc st.kc.target_positions "main" t' } },
                ["target set"])
      | _, _ => none
  else some (st, [])

/-- `_update_status` (remote_control_server.py:301-319); `allRead` is the
outcome of `_read_current_positions()`. -/
def _update_status (allRead : Option (List (String × List ℚ))) (st : SrvState) :
    SrvState × List String :=
  if st.robot ∧ st.connected then
    match allRead with
    | some ps =>
      ({ st with status_positions := ps
                 status_targets := st.kc.target_positions }, [])
    | none => (st, ["Failed to update status"])
  else (st, [])

/-- `_execute_command` (remote_control_server.py:239-267): guard on robot
presence and connection, then dispatch on `command.get('type')`; a tag
matching none of the five known tags falls through every `elif` with no
effect and no log.  Exceptions raised by a handler are caught and
logged by the surrounding `try`. -/
def _execute_command (mainRead : Option (List ℚ))
    (allRead : Option (List (String × List ℚ))) (cmd : Command)
    (st : SrvState) : SrvState × List String :=
  if ¬ (st.robot ∧ st.connected) then (st, [])
  else if cmd.ctype = some "key_press" then
    match _simulate_key_press cmd.key st with
    | some r => r
    | none => (st, ["Error executing command"])
  else if cmd.ctype = some "key_release" then
    _simulate_key_release cmd.key st
  else if cmd.ctype = some "emergency_stop" then
    server_emergency_stop mainRead st
  else if cmd.ctype = some "set_target" then
    match _set_target_position cmd.motor_idx cmd.position st with
    | some r => r
    | none => (st, ["Error executing command"])
  else if cmd.ctype = some "get_status" then
    _update_status allRead st
  else (st, [])

/-- `_process_commands` (remote_control_server.py:228-237) draining a
queue of commands in FIFO order, with fixed read outcomes. -/
def process_commands (mainRead : Option (List ℚ))
    (allRead : Option (List (String × List ℚ))) :
    List Command → SrvState → SrvState × List String
  | [], st => (st, [])
  | cmd :: rest, st =>
    let r := _execute_command mainRead allRead cmd st
    let r' := process_commands mainRead allRead rest r.1
    (r'.1, r.2 ++ r'.2)

/-! ## Derived notions used to state the properties -/

/-- The speed-profile operations a user can issue (on_key_press speed
keys / their network equivalents). -/
inductive SpeedOp where
  | adjust (δ : ℚ)
  | reset
  | adjustHold (δ : ℚ)
  | resetHold
deriving DecidableEq, Repr

def applySpeedOp (s : KCState) : SpeedOp → KCState
  | .adjust δ => adjust_speed δ s
  | .reset => reset_speed s
  | .adjustHold δ => adjust_hold_speed δ s
  | .resetHold => reset_hold_speed s

def runSpeedOps (ops : List SpeedOp) : KCState :=
  ops.foldl applySpeedOp initKC

/-- The key-mapping table is internally consistent: the speed scale is
within its bounds and every mapped key's effective delta equals
`base_delta * base_speed * speed_scale`. -/
def SpeedConsistent (s : KCState) : Prop :=
  SPEED_SCALE_MIN ≤ s.speed_scale ∧ s.speed_scale ≤ SPEED_SCALE_MAX ∧
  s.key_mapping =
    (base_key_mapping.map
      (fun e => (e.1, (e.2.1, e.2.2 * s.base_speed * s.speed_scale))))

/-- The state after the emergency branch of `calculate_goal_positions`
has re-synced every arm's target to its current position. -/
def syncTargets (s : KCState) (cur : List (String × List ℚ)) : KCState :=
  { s with target_positions :=
      (cur.foldl (fun tp p => updateAssoc tp p.1 p.2) s.target_positions) }

/-- Per-slot gravity-compensation offset of `calculate_goal_positions`. -/
def gBias (j : Nat) : ℚ :=
  if motorNameAt j = "shoulder_lift" then 6.0
  else if motorNameAt j = "elbow_flex" then 3.0
  else 0

/-! ## Helper lemmas -/

theorem lookupStr_updateAssoc_self {α : Type} (l : List (String × α)) (k : String) (v : α) :
    lookupStr k (updateAssoc l k v) = some v := by
  induction l with
  | nil => simp [updateAssoc, lookupStr]
  | cons e rest ih =>
    by_cases h : e.1 = k
    · simp [updateAssoc, lookupStr, h]
    · simp [updateAssoc, lookupStr, h, ih]

theorem lookupStr_updateAssoc_ne {α : Type} (l : List (String × α)) (k k' : String)
    (v : α) (h : k ≠ k') : lookupStr k (updateAssoc l k' v) = lookupStr k l := by
  induction l with
  | nil =>
    simp only [updateAssoc, lookupStr]
    rw [if_neg (fun hh => h hh.symm)]
  | cons e rest ih =>
    rcases e with ⟨ek, ev⟩
    by_cases he : ek = k'
    · subst he
      simp only [updateAssoc, if_pos rfl, lookupStr]
      rw [if_neg (fun hh => h hh.symm), if_neg (fun hh => h hh.symm)]
    · simp only [updateAssoc, if_neg he, lookupStr]
      by_cases hk : ek = k
      · rw [if_pos hk, if_pos hk]
      · rw [if_neg hk, if_neg hk, ih]

theorem clampElems_within_id : ∀ (gs ps ds : List ℚ),
    ps.length = gs.length → ds.length = gs.length →
    (∀ i, i < gs.length →
      -(ds.getD i 0) ≤ gs.getD i 0 - ps.getD i 0 ∧
      gs.getD i 0 - ps.getD i 0 ≤ ds.getD i 0) →
    clampElems gs ps ds = gs := by
  intro gs
  induction gs with
  | nil => intro ps ds _ _ _; cases ps <;> cases ds <;> rfl
  | cons g gs ih =>
    intro ps ds hp hd hin
    match ps, ds with
    | p :: ps, d :: ds =>
      have h0 := hin 0 (by simp)
      simp only [List.getD_cons_zero] at h0
      have hmin : min (g - p) d = g - p := min_eq_left h0.2
      have hmax : max (g - p) (-d) = g - p := max_eq_left h0.1
      have hrest : clampElems gs ps ds = gs := by
        refine ih ps ds (by simpa using hp) (by simpa using hd) (fun i hi => ?_)
        have := hin (i + 1) (by simpa using Nat.succ_lt_succ hi)
        simpa using this
      simp [clampElems, hmin, hmax, hrest]

/-! ## Claim theorems -/

/-- C10: `ensure_absolute_position_limits` is unconditionally the
identity on the goal vector, for every motor-name list and robot type,
and consequently `_apply_safety_limits` returns its input goal dict
unchanged. -/
theorem absolute_limits_identity :
    (∀ (goal : List ℚ) (motor_names : List String) (robot_type : String),
      ensure_absolute_position_limits goal motor_names robot_type = goal) ∧
    (∀ (motorNamesOf : String → List String) (robot_type : String)
      (goal : List (String × List ℚ)),
      _apply_safety_limits motorNamesOf robot_type goal = goal) := by
  refine ⟨fun g n r => rfl, fun mno rt goal => ?_⟩
  simp [_apply_safety_limits, ensure_absolute_position_limits]

/-- C9: `reset_speed` and `reset_hold_speed` are idempotent: applying
either twice yields the same controller state as applying it once. -/
theorem reset_speed_idempotent :
    (∀ s : KCState, reset_speed (reset_speed s) = reset_speed s) ∧
    (∀ s : KCState, reset_hold_speed (reset_hold_speed s) = reset_hold_speed s) := by
  constructor
  · intro s
    have h1 : (reset_speed s).speed_scale = DEFAULT_SPEED_SCALE := by
      unfold reset_speed _update_key_mapping
      split <;> rfl
    show (if DEFAULT_SPEED_SCALE ≠ (reset_speed s).speed_scale
          then _update_key_mapping { reset_speed s with speed_scale := DEFAULT_SPEED_SCALE }
          else { reset_speed s with speed_scale := DEFAULT_SPEED_SCALE }) = reset_speed s
    rw [if_neg (fun hne => hne h1.symm), ← h1]
  · intro s
    rfl

/-- C7: for every goal, present-position vector and max-delta (scalar or
per-motor vector) whose element-wise difference `goal - present` already
lies within `[-maxDelta, +maxDelta]`, `ensure_safe_goal_position`
returns the goal unchanged. -/
theorem clamp_relative_within_bounds_identity
    (goal present : List ℚ) (m : MaxRelTarget)
    (hlen : present.length = goal.length)
    (hmd : (expandMax m goal.length).length = goal.length)
    (hin : ∀ i, i < goal.length →
      -((expandMax m goal.length).getD i 0) ≤ goal.getD i 0 - present.getD i 0 ∧
      goal.getD i 0 - present.getD i 0 ≤ (expandMax m goal.length).getD i 0) :
    ensure_safe_goal_position goal present m = goal := by
  unfold ensure_safe_goal_position
  exact clampElems_within_id goal present (expandMax m goal.length) hlen hmd hin

/-- Witness for C7 at a concrete in-bounds input. -/
theorem clamp_relative_within_bounds_identity_witness :
    ensure_safe_goal_position [1, 2, 3] [0.5, 1.5, 3.5] (.scalar 1) = [1, 2, 3] :=
  clamp_relative_within_bounds_identity [1, 2, 3] [0.5, 1.5, 3.5] (.scalar 1)
    (by simp) (by simp [expandMax])
    (by
      intro i hi
      simp only [List.length_cons, List.length_nil] at hi
      interval_cases i <;> norm_num [expandMax, List.getD])

theorem adjust_speed_scale_eq (δ : ℚ) (s : KCState) :
    (adjust_speed δ s).speed_scale =
      max SPEED_SCALE_MIN (min SPEED_SCALE_MAX (s.speed_scale + δ)) := by
  show (if max SPEED_SCALE_MIN (min SPEED_SCALE_MAX (s.speed_scale + δ)) ≠ s.speed_scale
        then _update_key_mapping
          { s with speed_scale := max SPEED_SCALE_MIN (min SPEED_SCALE_MAX (s.speed_scale + δ)) }
        else { s with
                speed_scale := max SPEED_SCALE_MIN (min SPEED_SCALE_MAX (s.speed_scale + δ)) }).speed_scale =
      max SPEED_SCALE_MIN (min SPEED_SCALE_MAX (s.speed_scale + δ))
  split <;> rfl

theorem speedConsistent_applySpeedOp (s : KCState) (op : SpeedOp)
    (h : SpeedConsistent s) : SpeedConsistent (applySpeedOp s op) := by
  obtain ⟨h1, h2, h3⟩ := h
  have hminmax : SPEED_SCALE_MIN ≤ SPEED_SCALE_MAX := by
    norm_num [SPEED_SCALE_MIN, SPEED_SCALE_MAX]
  cases op with
  | adjust δ =>
    show SpeedConsistent
      (if max SPEED_SCALE_MIN (min SPEED_SCALE_MAX (s.speed_scale + δ)) ≠ s.speed_scale
       then _update_key_mapping
         { s with speed_scale := max SPEED_SCALE_MIN (min SPEED_SCALE_MAX (s.speed_scale + δ)) }
       else { s with speed_scale := max SPEED_SCALE_MIN (min SPEED_SCALE_MAX (s.speed_scale + δ)) })
    set ns := max SPEED_SCALE_MIN (min SPEED_SCALE_MAX (s.speed_scale + δ)) with hns
    have hlo : SPEED_SCALE_MIN ≤ ns := le_max_left _ _
    have hhi : ns ≤ SPEED_SCALE_MAX := max_le hminmax (min_le_left _ _)
    by_cases hc : ns ≠ s.speed_scale
    · rw [if_pos hc]
      exact ⟨hlo, hhi, rfl⟩
    · rw [if_neg hc]
      push_neg at hc
      refine ⟨hlo, hhi, ?_⟩
      show s.key_mapping = _
      rw [h3, hc]
  | reset =>
    show SpeedConsistent
      (if DEFAULT_SPEED_SCALE ≠ s.speed_scale
       then _update_key_mapping { s with speed_scale := DEFAULT_SPEED_SCALE }
       else { s with speed_scale := DEFAULT_SPEED_SCALE })
    have hd1 : SPEED_SCALE_MIN ≤ DEFAULT_SPEED_SCALE := by
      norm_num [SPEED_SCALE_MIN, DEFAULT_SPEED_SCALE]
    have hd2 : DEFAULT_SPEED_SCALE ≤ SPEED_SCALE_MAX := by
      norm_num [SPEED_SCALE_MAX, DEFAULT_SPEED_SCALE]
    by_cases hc : DEFAULT_SPEED_SCALE ≠ s.speed_scale
    · rw [if_pos hc]
      exact ⟨hd1, hd2, rfl⟩
    · rw [if_neg hc]
      push_neg at hc
      refine ⟨hd1, hd2, ?_⟩
      show s.key_mapping = _
      rw [h3, ← hc]
  | adjustHold δ => exact ⟨h1, h2, h3⟩
  | resetHold => exact ⟨h1, h2, h3⟩

theorem speedConsistent_init : SpeedConsistent initKC := by
  refine ⟨?_, ?_, rfl⟩
  · show SPEED_SCALE_MIN ≤ DEFAULT_SPEED_SCALE
    norm_num [SPEED_SCALE_MIN, DEFAULT_SPEED_SCALE]
  · show DEFAULT_SPEED_SCALE ≤ SPEED_SCALE_MAX
    norm_num [SPEED_SCALE_MAX, DEFAULT_SPEED_SCALE]

theorem speedConsistent_foldl (ops : List SpeedOp) :
    ∀ s : KCState, SpeedConsistent s →
      SpeedConsistent (ops.foldl applySpeedOp s) := by
  induction ops with
  | nil => intro s h; exact h
  | cons op rest ih =>
    intro s h
    exact ih (applySpeedOp s op) (speedConsistent_applySpeedOp s op h)

/-- C6: after any sequence of speed-adjust / speed-reset operations the
speed scale stays within `[0.1, 5.0]` and the key-mapping table remains
consistent (effective delta = base delta × base speed × scale); an
adjustment that would exceed a bound clamps to that bound. -/
theorem speed_scale_invariant :
    (∀ ops : List SpeedOp, SpeedConsistent (runSpeedOps ops)) ∧
    (∀ (s : KCState) (δ : ℚ), SPEED_SCALE_MAX < s.speed_scale + δ →
      (adjust_speed δ s).speed_scale = SPEED_SCALE_MAX) ∧
    (∀ (s : KCState) (δ : ℚ), s.speed_scale + δ < SPEED_SCALE_MIN →
      (adjust_speed δ s).speed_scale = SPEED_SCALE_MIN) := by
  have hminmax : SPEED_SCALE_MIN ≤ SPEED_SCALE_MAX := by
    norm_num [SPEED_SCALE_MIN, SPEED_SCALE_MAX]
  refine ⟨fun ops => speedConsistent_foldl ops initKC speedConsistent_init,
          fun s δ h => ?_, fun s δ h => ?_⟩
  · rw [adjust_speed_scale_eq, min_eq_left h.le, max_eq_right hminmax]
  · rw [adjust_speed_scale_eq, min_eq_right (h.le.trans hminmax),
        max_eq_left h.le]

/-- Witness for C6: a sequence overshooting both bounds, and concrete
clamps at the two bounds. -/
theorem speed_scale_invariant_witness :
    SpeedConsistent (runSpeedOps [.adjust 10, .reset, .adjust (-3)]) ∧
    (adjust_speed 10 initKC).speed_scale = SPEED_SCALE_MAX ∧
    (adjust_speed (-10) initKC).speed_scale = SPEED_SCALE_MIN := by
  refine ⟨speed_scale_invariant.1 [.adjust 10, .reset, .adjust (-3)],
          speed_scale_invariant.2.1 initKC 10 ?_,
          speed_scale_invariant.2.2 initKC (-10) ?_⟩
  · show SPEED_SCALE_MAX < initKC.speed_scale + 10
    norm_num [SPEED_SCALE_MAX, initKC, _update_key_mapping, DEFAULT_SPEED_SCALE]
  · show initKC.speed_scale + (-10) < SPEED_SCALE_MIN
    norm_num [SPEED_SCALE_MIN, initKC, _update_key_mapping, DEFAULT_SPEED_SCALE]

theorem gravityCompAux_length : ∀ (xs : List ℚ) (k : Nat),
    (gravityCompAux k xs).length = xs.length := by
  intro xs
  induction xs with
  | nil => intro k; rfl
  | cons x xs ih => intro k; simp [gravityCompAux, ih]

theorem gravityCompAux_getD : ∀ (xs : List ℚ) (k i : Nat), i < xs.length →
    (gravityCompAux k xs).getD i 0 = xs.getD i 0 + gBias (k + i) := by
  intro xs
  induction xs with
  | nil => intro k i h; simp at h
  | cons x xs ih =>
    intro k i h
    cases i with
    | zero =>
      simp only [gravityCompAux, List.getD_cons_zero, Nat.add_zero, gBias]
      split_ifs <;> simp
    | succ i =>
      simp only [gravityCompAux, List.getD_cons_succ]
      rw [ih (k + 1) i (by simpa using Nat.lt_of_succ_lt_succ h)]
      congr 2
      omega

theorem motor_string_ne (s : String) :
    ("motor_" ++ s) ≠ "shoulder_lift" ∧ ("motor_" ++ s) ≠ "elbow_flex" := by
  constructor <;>
    · intro h
      have h2 := congrArg String.data h
      simp [String.data_append] at h2

theorem gBias_eq (i : Nat) :
    gBias i = if i = 1 then (6.0 : ℚ) else if i = 2 then 3.0 else 0 := by
  match i with
  | 0 => simp [gBias, motorNameAt, MOTOR_NAMES]
  | 1 => simp [gBias, motorNameAt, MOTOR_NAMES]
  | 2 => simp [gBias, motorNameAt, MOTOR_NAMES]
  | 3 => simp [gBias, motorNameAt, MOTOR_NAMES]
  | 4 => simp [gBias, motorNameAt, MOTOR_NAMES]
  | 5 => simp [gBias, motorNameAt, MOTOR_NAMES]
  | (n + 6) =>
    have h1 : motorNameAt (n + 6) = "motor_" ++ toString (n + 6) := by
      unfold motorNameAt
      exact List.getD_eq_default _ _ (by simp [MOTOR_NAMES])
    have hne1 : n + 6 ≠ 1 := by omega
    have hne2 : n + 6 ≠ 2 := by omega
    rw [gBias, h1, if_neg (motor_string_ne _).1, if_neg (motor_string_ne _).2,
        if_neg hne1, if_neg hne2]

theorem calc_emergency_eq : ∀ (cur : List (String × List ℚ)) (s : KCState),
    s.emergency_stop_active = true →
    calculate_goal_positions s cur = some (cur, syncTargets s cur) := by
  intro cur
  induction cur with
  | nil => intro s h; rfl
  | cons p rest ih =>
    intro s h
    rcases p with ⟨name, curv⟩
    unfold calculate_goal_positions
    rw [if_pos h]
    dsimp only
    rw [ih { s with target_positions := updateAssoc s.target_positions name curv } h]
    rfl

theorem lookup_foldl_nomem : ∀ (rest tp : List (String × List ℚ)) (n : String),
    n ∉ rest.map Prod.fst →
    lookupStr n (rest.foldl (fun tp q => updateAssoc tp q.1 q.2) tp) =
      lookupStr n tp := by
  intro rest
  induction rest with
  | nil => intro tp n h; rfl
  | cons q rest ih =>
    intro tp n h
    simp only [List.map_cons, List.mem_cons] at h
    push_neg at h
    rw [List.foldl_cons, ih _ n h.2,
        lookupStr_updateAssoc_ne _ n q.1 _ h.1]

theorem lookup_foldl_mem : ∀ (cur tp : List (String × List ℚ)) (n : String)
    (p : List ℚ), (cur.map Prod.fst).Nodup → (n, p) ∈ cur →
    lookupStr n (cur.foldl (fun tp q => updateAssoc tp q.1 q.2) tp) = some p := by
  intro cur
  induction cur with
  | nil => intro tp n p _ hm; cases hm
  | cons q rest ih =>
    intro tp n p hnd hm
    rcases q with ⟨qn, qv⟩
    simp only [List.map_cons, List.nodup_cons] at hnd
    rw [List.foldl_cons]
    rcases List.mem_cons.mp hm with heq | hmem
    · have hqn : qn = n := by cases heq; rfl
      have hqv : qv = p := by cases heq; rfl
      subst hqn; subst hqv
      rw [lookup_foldl_nomem rest _ qn hnd.1, lookupStr_updateAssoc_self]
    · exact ih _ n p hnd.2 hmem

/-- C1: with emergency stop active, `calculate_goal_positions` returns
exactly the current positions as goals for every arm and motor —
whatever `pressed_keys` contains — and re-syncs every arm's target
positions to those current positions in the same call. -/
theorem calculate_goal_emergency (s : KCState) (cur : List (String × List ℚ))
    (h : s.emergency_stop_active = true) (hnd : (cur.map Prod.fst).Nodup) :
    calculate_goal_positions s cur = some (cur, syncTargets s cur) ∧
    ∀ n p, (n, p) ∈ cur →
      lookupStr n (syncTargets s cur).target_positions = some p :=
  ⟨calc_emergency_eq cur s h,
   fun n p hm => lookup_foldl_mem cur s.target_positions n p hnd hm⟩

/-- Witness for C1 at a concrete state with a stale target and a
non-empty press set. -/
theorem calculate_goal_emergency_witness :
    calculate_goal_positions
      { initKC with
          emergency_stop_active := true
          pressed_keys := ["w"]
          target_positions := [("main", [9, 9, 9, 9, 9, 9])] }
      [("main", [1, 2, 3, 4, 5, 6])] =
      some ([("main", [1, 2, 3, 4, 5, 6])],
        syncTargets
          { initKC with
              emergency_stop_active := true
              pressed_keys := ["w"]
              target_positions := [("main", [9, 9, 9, 9, 9, 9])] }
          [("main", [1, 2, 3, 4, 5, 6])]) ∧
    lookupStr "main"
      (syncTargets
        { initKC with
            emergency_stop_active := true
            pressed_keys := ["w"]
            target_positions := [("main", [9, 9, 9, 9, 9, 9])] }
        [("main", [1, 2, 3, 4, 5, 6])]).target_positions =
      some [1, 2, 3, 4, 5, 6] :=
  ⟨(calculate_goal_emergency _ _ rfl (by simp)).1,
   (calculate_goal_emergency _ _ rfl (by simp)).2 "main" [1, 2, 3, 4, 5, 6]
     (by simp)⟩

theorem calc_normal_eq : ∀ (cur : List (String × List ℚ)) (s : KCState),
    s.emergency_stop_active = false →
    (∀ e ∈ cur, (lookupStr e.1 s.target_positions).isSome = true) →
    calculate_goal_positions s cur =
      some (cur.map
        (fun e => (e.1, gravityComp ((lookupStr e.1 s.target_positions).getD []))),
        s) := by
  intro cur
  induction cur with
  | nil => intro s h ht; rfl
  | cons p rest ih =>
    intro s h ht
    rcases p with ⟨name, curv⟩
    obtain ⟨t, hts⟩ := Option.isSome_iff_exists.mp (ht ⟨name, curv⟩ (by simp))
    simp only [calculate_goal_positions, h, Bool.false_eq_true, if_false, hts]
    rw [ih s h (fun e he => ht e (by simp [he]))]
    simp [hts]

/-- C5: with emergency stop inactive, `calculate_goal_positions` returns
the gravity-compensated targets and leaves the controller state (and so
`target_positions`) untouched; the compensation adds exactly +6.0 at the
shoulder-lift slot (index 1) and +3.0 at the elbow-flex slot (index 2)
and leaves every other slot equal to the target entry. -/
theorem goal_gravity_bias (s : KCState) (cur : List (String × List ℚ))
    (h : s.emergency_stop_active = false)
    (ht : ∀ e ∈ cur, (lookupStr e.1 s.target_positions).isSome = true) :
    (calculate_goal_positions s cur =
      some (cur.map
        (fun e => (e.1, gravityComp ((lookupStr e.1 s.target_positions).getD []))),
        s)) ∧
    (∀ t : List ℚ, (gravityComp t).length = t.length) ∧
    (∀ (t : List ℚ) (i : Nat), i < t.length →
      (gravityComp t).getD i 0 =
        t.getD i 0 + (if i = 1 then (6.0 : ℚ) else if i = 2 then 3.0 else 0)) := by
  refine ⟨calc_normal_eq cur s h ht, fun t => gravityCompAux_length t 0,
          fun t i hi => ?_⟩
  rw [gravityComp, gravityCompAux_getD t 0 i hi, Nat.zero_add, gBias_eq]

/-- Witness for C5 at a concrete state: zero targets yield goal
`[0, 6, 3, 0, 0, 0]`-shaped bias. -/
theorem goal_gravity_bias_witness :
    (calculate_goal_positions
      { initKC with target_positions := [("main", [0, 0, 0, 0, 0, 0])] }
      [("main", [7, 7, 7, 7, 7, 7])] =
      some ([("main",
        gravityComp ((lookupStr "main"
          ({ initKC with
              target_positions := [("main", [0, 0, 0, 0, 0, 0])] }).target_positions).getD []))],
        { initKC with target_positions := [("main", [0, 0, 0, 0, 0, 0])] })) ∧
    (gravityComp [0, 0, 0, 0, 0, 0]).getD 1 0 = 0 + (6.0 : ℚ) := by
  constructor
  · have h := (goal_gravity_bias
      { initKC with target_positions := [("main", [0, 0, 0, 0, 0, 0])] }
      [("main", [7, 7, 7, 7, 7, 7])] rfl (by simp [lookupStr])).1
    simpa using h
  · have h := (goal_gravity_bias
      { initKC with target_positions := [("main", [0, 0, 0, 0, 0, 0])] }
      [("main", [7, 7, 7, 7, 7, 7])] rfl (by simp [lookupStr])).2.2
      [0, 0, 0, 0, 0, 0] 1 (by simp)
    simpa using h

/-- C4: with the default speed scale (1.0) and base speed (10.0) and a
consistent mapping table, a network `key_press` of "w" adds exactly
+5.0 to the "main" target at motor index 1, and a subsequent
`key_release` of "w" leaves the state — hence the accumulated target —
unchanged. -/
theorem key_w_press_release (st : SrvState) (t : List ℚ)
    (hscale : st.kc.speed_scale = DEFAULT_SPEED_SCALE)
    (hbase : st.kc.base_speed = DEFAULT_BASE_SPEED)
    (hmap : st.kc.key_mapping =
      (base_key_mapping.map
        (fun e => (e.1, (e.2.1, e.2.2 * st.kc.base_speed * st.kc.speed_scale)))))
    (hE : st.kc.emergency_stop_active = false)
    (htgt : lookupStr "main" st.kc.target_positions = some t)
    (hlen : 1 < t.length) :
    _simulate_key_press (some "w") st =
      some ({ st with kc := { st.kc with target_positions :=
                (updateAssoc st.kc.target_positions "main"
                  (t.set 1 (t.getD 1 0 + 5))) } },
            ["key_press applied"]) ∧
    ∀ st' : SrvState,
      _simulate_key_release (some "w") st' = (st', ["key_release logged"]) := by
  have hw : lookupStr "w" st.kc.key_mapping = some (1, 5) := by
    rw [hmap, hscale, hbase]
    simp [base_key_mapping, lookupStr, DEFAULT_SPEED_SCALE, DEFAULT_BASE_SPEED,
          MOTOR_SHOULDER_LIFT]
    norm_num
  refine ⟨?_, fun st' => rfl⟩
  unfold _simulate_key_press
  dsimp only
  rw [hw, htgt]
  dsimp only
  rw [tensorAddAt, if_pos hlen]

/-- Witness for C4: pressing "w" from an all-zero six-motor target takes
motor 1 to exactly 5.0; the release leaves the state unchanged. -/
theorem key_w_press_release_witness :
    _simulate_key_press (some "w")
      { robot := true, connected := true, emergency_stop := false,
        status_positions := [], status_targets := [],
        kc := { initKC with target_positions := [("main", [0, 0, 0, 0, 0, 0])] } } =
      some ({ robot := true, connected := true, emergency_stop := false,
              status_positions := [], status_targets := [],
              kc := { initKC with
                        target_positions := [("main", [0, 5, 0, 0, 0, 0])] } },
            ["key_press applied"]) ∧
    _simulate_key_release (some "w")
      { robot := true, connected := true, emergency_stop := false,
        status_positions := [], status_targets := [],
        kc := { initKC with target_positions := [("main", [0, 5, 0, 0, 0, 0])] } } =
      ({ robot := true, connected := true, emergency_stop := false,
         status_positions := [], status_targets := [],
         kc := { initKC with target_positions := [("main", [0, 5, 0, 0, 0, 0])] } },
       ["key_release logged"]) := by
  have h := key_w_press_release
    { robot := true, connected := true, emergency_stop := false,
      status_positions := [], status_targets := [],
      kc := { initKC with target_positions := [("main", [0, 0, 0, 0, 0, 0])] } }
    [0, 0, 0, 0, 0, 0] rfl rfl rfl rfl (by simp [lookupStr]) (by simp)
  refine ⟨?_, h.2 _⟩
  have h1 := h.1
  simpa [updateAssoc] using h1

/-- C2 counterexample: with emergency stop active (both the controller
flag and the server status flag), a network `key_press` of a mapped key
still mutates TargetState — motor 1 goes from 0 to 5. -/
theorem network_press_during_estop_counterexample :
    _simulate_key_press (some "w")
      { robot := true, connected := true, emergency_stop := true,
        status_positions := [], status_targets := [],
        kc := { initKC with
                  emergency_stop_active := true
                  target_positions := [("main", [0, 0, 0, 0, 0, 0])] } } =
      some ({ robot := true, connected := true, emergency_stop := true,
              status_positions := [], status_targets := [],
              kc := { initKC with
                        emergency_stop_active := true
                        target_positions := [("main", [0, 5, 0, 0, 0, 0])] } },
            ["key_press applied"]) := by
  simp only [_simulate_key_press, initKC, _update_key_mapping, base_key_mapping,
             lookupStr, tensorAddAt, updateAssoc, MOTOR_SHOULDER_LIFT,
             MOTOR_SHOULDER_PAN, MOTOR_ELBOW_FLEX, MOTOR_WRIST_FLEX,
             MOTOR_WRIST_ROLL, MOTOR_GRIPPER]
  norm_num [List.set, List.getD, DEFAULT_BASE_SPEED, DEFAULT_SPEED_SCALE]

/-- C2 (amended): during emergency stop the local keyboard path discards
every non-escape key (state unchanged), but the network `key_press` path
never consults the emergency-stop flag: a mapped key always applies its
delta to the "main" target. -/
theorem estop_blocks_local_not_network :
    (∀ (s : KCState) (key : String) (conn : Bool),
      s.emergency_stop_active = true → key ≠ "escape" →
      on_key_press key conn s = some s) ∧
    (∀ (st : SrvState) (k : String) (idx : Nat) (δ : ℚ) (t t' : List ℚ),
      lookupStr k st.kc.key_mapping = some (idx, δ) →
      lookupStr "main" st.kc.target_positions = some t →
      tensorAddAt t idx δ = some t' →
      _simulate_key_press (some k) st =
        some ({ st with kc := { st.kc with target_positions :=
                  (updateAssoc st.kc.target_positions "main" t') } },
              ["key_press applied"])) := by
  constructor
  · intro s key conn h hk
    unfold on_key_press
    rw [if_pos ⟨h, hk⟩]
  · intro st k idx δ t t' hm ht ha
    unfold _simulate_key_press
    dsimp only
    rw [hm, ht]
    dsimp only
    rw [ha]

/-- Witness for the amended C2: a blocked local "w" press during
emergency stop, and an applied network "q" press during emergency stop. -/
theorem estop_blocks_local_not_network_witness :
    on_key_press "w" true
      { initKC with
          emergency_stop_active := true
          target_positions := [("main", [0, 0, 0, 0, 0, 0])] } =
      some { initKC with
               emergency_stop_active := true
               target_positions := [("main", [0, 0, 0, 0, 0, 0])] } ∧
    _simulate_key_press (some "q")
      { robot := true, connected := true, emergency_stop := true,
        status_positions := [], status_targets := [],
        kc := { initKC with
                  emergency_stop_active := true
                  target_positions := [("main", [1, 1, 1, 1, 1, 1])] } } =
      some ({ robot := true, connected := true, emergency_stop := true,
              status_positions := [], status_targets := [],
              kc := { initKC with
                        emergency_stop_active := true
                        target_positions :=
                          (updateAssoc [("main", [1, 1, 1, 1, 1, 1])] "main"
                            [1, 1, 6, 1, 1, 1]) } },
            ["key_press applied"]) := by
  constructor
  · exact estop_blocks_local_not_network.1 _ "w" true rfl (by simp)
  · exact estop_blocks_local_not_network.2 _ "q" 2 5 [1, 1, 1, 1, 1, 1]
      [1, 1, 6, 1, 1, 1]
      (by
        simp [initKC, _update_key_mapping, base_key_mapping, lookupStr,
              MOTOR_ELBOW_FLEX]
        norm_num [DEFAULT_SPEED_SCALE, DEFAULT_BASE_SPEED])
      (by simp [lookupStr])
      (by
        simp [tensorAddAt, List.set, List.getD]
        norm_num)

/-- C3 counterexample: in `SO100RemoteServer._emergency_stop` a failing
position read leaves the server's emergency-stop flag unset (the whole
state is unchanged), because the flag assignment sits after the read
inside the `try`. -/
theorem server_estop_read_failure_counterexample :
    server_emergency_stop none
      { robot := true, connected := true, emergency_stop := false,
        status_positions := [], status_targets := [], kc := initKC } =
      ({ robot := true, connected := true, emergency_stop := false,
         status_positions := [], status_targets := [], kc := initKC },
       ["Emergency stop failed"]) := by
  rfl

/-- C3 (amended): when the position read fails during emergency-stop
activation, the keyboard-controller path still sets the flag, clears the
pressed keys and leaves TargetState unchanged; the network-server path
leaves everything — including its emergency-stop flag — unchanged and
only logs the failure. -/
theorem estop_read_failure_amended :
    (∀ (s : KCState) (conn : Bool), s.emergency_stop_active = false →
      on_escape_press conn none s =
        { s with emergency_stop_active := true, pressed_keys := [] }) ∧
    (∀ st : SrvState, st.robot = true →
      server_emergency_stop none st = (st, ["Emergency stop failed"])) := by
  constructor
  · intro s conn h
    unfold on_escape_press
    rw [if_pos (by simp [h])]
    cases conn <;> rfl
  · intro st hr
    unfold server_emergency_stop
    rw [if_pos hr]

/-- Witness for the amended C3 at concrete states. -/
theorem estop_read_failure_amended_witness :
    on_escape_press true none
      { initKC with
          pressed_keys := ["w"]
          target_positions := [("main", [2, 2, 2, 2, 2, 2])] } =
      { initKC with
          pressed_keys := []
          emergency_stop_active := true
          target_positions := [("main", [2, 2, 2, 2, 2, 2])] } ∧
    server_emergency_stop none
      { robot := true, connected := true, emergency_stop := true,
        status_positions := [], status_targets := [], kc := initKC } =
      ({ robot := true, connected := true, emergency_stop := true,
         status_positions := [], status_targets := [], kc := initKC },
       ["Emergency stop failed"]) :=
  ⟨estop_read_failure_amended.1 _ true rfl, estop_read_failure_amended.2 _ rfl⟩

/-- C8 counterexample: a command with an unknown tag is ignored without
any log entry being emitted (state unchanged, empty log) — contradicting
"ignored and logged". -/
theorem unknown_tag_not_logged_counterexample :
    _execute_command none none
      { ctype := some "bogus", key := none, motor_idx := none, position := none }
      { robot := true, connected := true, emergency_stop := false,
        status_positions := [], status_targets := [], kc := initKC } =
      ({ robot := true, connected := true, emergency_stop := false,
         status_positions := [], status_targets := [], kc := initKC }, []) := by
  rfl

/-- C8 (amended): a dequeued command whose tag matches none of the five
known tags is silently ignored — no log line, no state change, never
fatal — and processing continues with the remaining commands unchanged. -/
theorem unknown_tag_silent_ignore (st : SrvState) (cmd : Command)
    (mainRead : Option (List ℚ)) (allRead : Option (List (String × List ℚ)))
    (rest : List Command)
    (h : cmd.ctype ∉ ([some "key_press", some "key_release",
      some "emergency_stop", some "set_target", some "get_status"] :
        List (Option String))) :
    _execute_command mainRead allRead cmd st = (st, []) ∧
    process_commands mainRead allRead (cmd :: rest) st =
      process_commands mainRead allRead rest st := by
  have h5 : cmd.ctype ≠ some "key_press" ∧ cmd.ctype ≠ some "key_release" ∧
      cmd.ctype ≠ some "emergency_stop" ∧ cmd.ctype ≠ some "set_target" ∧
      cmd.ctype ≠ some "get_status" := by
    simpa [not_or] using h
  have h1 : _execute_command mainRead allRead cmd st = (st, []) := by
    unfold _execute_command
    simp [h5.1, h5.2.1, h5.2.2.1, h5.2.2.2.1, h5.2.2.2.2]
  refine ⟨h1, ?_⟩
  have h2 : process_commands mainRead allRead (cmd :: rest) st =
      ((process_commands mainRead allRead rest
          (_execute_command mainRead allRead cmd st).1).1,
        (_execute_command mainRead allRead cmd st).2 ++
          (process_commands mainRead allRead rest
            (_execute_command mainRead allRead cmd st).1).2) := rfl
  rw [h2, h1]
  simp

/-- Witness for the amended C8 at a concrete unknown-tagged command. -/
theorem unknown_tag_silent_ignore_witness :
    _execute_command none none
      { ctype := some "unknown_cmd", key := none, motor_idx := none,
        position := none }
      { robot := true, connected := true, emergency_stop := false,
        status_positions := [], status_targets := [], kc := initKC } =
      ({ robot := true, connected := true, emergency_stop := false,
         status_positions := [], status_targets := [], kc := initKC }, []) ∧
    process_commands none none
      [{ ctype := some "unknown_cmd", key := none, motor_idx := none,
         position := none }]
      { robot := true, connected := true, emergency_stop := false,
        status_positions := [], status_targets := [], kc := initKC } =
      process_commands none none []
        { robot := true, connected := true, emergency_stop := false,
          status_positions := [], status_targets := [], kc := initKC } :=
  unknown_tag_silent_ignore _ _ none none [] (by simp)
